import Mathlib

/-!
Shallow embedding of `src/app.py` (conv-avatar), a Flask backend that glues
HTTP endpoints to vendor APIs (OpenWeatherMap, Wikipedia, NewsAPI, ElevenLabs
TTS, Azure STT, and the Revinci chat backend via Keycloak).

Each handler is modelled as a pure function.  The outbound HTTP request a
handler makes is modelled by an `HttpOutcome` argument: either the vendor's
response (status code plus a structured body holding exactly the fields the
handler reads), or a raised `requests` exception (timeout, connection error,
or any other exception carrying its `str(e)` text).  Handlers return an
`HttpResp` (status plus JSON body) together with a `Bool` recording whether
the vendor call was actually issued.  Module-level mutable state (the Revinci
token cache and the session dictionaries) is threaded explicitly.

Timestamps (`time.time()` values) are modelled as rationals; nothing in the
code depends on floating-point rounding, only on comparisons and addition of
second counts.
-/

namespace ConvAvatar

/-- Python truthiness of a string: `bool(s)` is `s ≠ ""`. -/
def pyTruthy (s : String) : Bool := s ≠ ""

/-- Python `a or b` restricted to strings: returns `a` unless it is falsy. -/
def pyOrStr (a b : String) : String := if a = "" then b else a

/-- Python `s.strip()`: drop leading and trailing whitespace. -/
def pyStrip (s : String) : String :=
  ⟨((s.data.dropWhile Char.isWhitespace).reverse.dropWhile
      Char.isWhitespace).reverse⟩

/-- Outcome of an outbound `requests` call, as a handler's `try` block
observes it: a response (status code and a body of type `α`, the fields the
handler reads from the JSON), or an exception.  The exception constructors
carry `str(e)` for the handlers that stringify the exception. -/
inductive HttpOutcome (α : Type) where
  | response (status : Nat) (body : α)
  | timeout (msg : String)
  | connErr (msg : String)
  | otherErr (msg : String)
deriving DecidableEq

/-- The `{'success': True, 'data': ...} / {'success': False, 'error': ...}`
dictionaries the helper functions return. -/
inductive ServiceResult (α : Type) where
  | ok (data : α)
  | err (msg : String)
deriving DecidableEq

/-- A JSON (or streamed) HTTP response body. -/
inductive Body (α : Type) where
  | json (payload : α)
  | errorJson (msg : String)
  | audio
deriving DecidableEq

/-- An HTTP response: status code plus body. -/
structure HttpResp (α : Type) where
  status : Nat
  body : Body α
deriving DecidableEq

/-! ### Weather (`get_weather_data`, `get_weather_forecast`, endpoints) -/

/-- `get_weather_data(city)` from `src/app.py`.  `apiKey` is
`WEATHER_CONFIG['api_key']`.  The success payload (the projected
`weather_info` dictionary, whose construction only selects and reformats
vendor fields) is abstracted as the vendor body `α`; no claim concerns those
fields.  The second component records whether the vendor call was issued. -/
def get_weather_data (apiKey city : String) (outcome : HttpOutcome α) :
    ServiceResult α × Bool :=
  if apiKey = "" then (.err "Weather API key not configured", false)
  else
    match outcome with
    | .response 200 b => (.ok b, true)
    | .response 404 _ => (.err ("City \"" ++ city ++ "\" not found"), true)
    | .response 401 _ => (.err "Invalid API key", true)
    | .response _ _ => (.err "Unable to fetch weather data", true)
    | .timeout _ => (.err "Weather service timeout", true)
    | .connErr _ => (.err "Unable to connect to weather service", true)
    | .otherErr e => (.err ("Weather API error: " ++ e), true)

/-- `data['list'][::8]`: every 8th element of the vendor forecast list. -/
def everyEighth : List α → List α
  | [] => []
  | x :: xs => x :: everyEighth (xs.drop 7)
termination_by l => l.length
decreasing_by simp only [List.length_cons, List.length_drop]; omega

/-- `get_weather_forecast(city, days)` from `src/app.py`.  The per-item field
projection is abstracted as the item type `α`.  Unlike `get_weather_data`,
this helper has no dedicated timeout/connection handlers: every exception is
caught by the generic `except Exception as e` arm. -/
def get_weather_forecast (apiKey city : String) (days : Int)
    (outcome : HttpOutcome (List α)) : ServiceResult (List α) × Bool :=
  if apiKey = "" then (.err "Weather API key not configured", false)
  else
    match outcome with
    | .response s items =>
      if s = 200 then (.ok ((everyEighth items).take days.toNat), true)
      else (.err "Forecast not available", true)
    | .timeout e => (.err ("Forecast API error: " ++ e), true)
    | .connErr e => (.err ("Forecast API error: " ++ e), true)
    | .otherErr e => (.err ("Forecast API error: " ++ e), true)

/-- The `/api/weather` endpoint (`get_weather`).  `city` is
`request.args.get('city')` (`none` when absent; an empty string is falsy and
also rejected). -/
def get_weather (apiKey : String) (city : Option String)
    (outcome : HttpOutcome α) : HttpResp α × Bool :=
  let c := city.getD ""
  if c = "" then (⟨400, .errorJson "City parameter is required"⟩, false)
  else
    match get_weather_data apiKey c outcome with
    | (.ok d, called) => (⟨200, .json d⟩, called)
    | (.err e, called) => (⟨404, .errorJson e⟩, called)

/-- An integer query parameter as the endpoint reads it:
absent (the Python default is used), present but not parseable by `int()`
(a `ValueError` is raised), or an integer value. -/
inductive IntParam where
  | absent
  | invalid (raw : String)
  | val (n : Int)
deriving DecidableEq

/-- The integer value of an `IntParam` given the handler's default. -/
def IntParam.getD (p : IntParam) (d : Int) : Int :=
  match p with
  | .val n => n
  | _ => d

/-- The `/api/forecast` endpoint (`get_forecast`).  `int(request.args.get('days', 5))`
runs before the `city` check, so an unparseable `days` yields the
`ValueError` 400 even when `city` is absent. -/
def get_forecast (apiKey : String) (city : Option String) (daysP : IntParam)
    (outcome : HttpOutcome (List α)) : HttpResp (List α) × Bool :=
  match daysP with
  | .invalid _ => (⟨400, .errorJson "Days parameter must be a number"⟩, false)
  | _ =>
    let days := daysP.getD 5
    let c := city.getD ""
    if c = "" then (⟨400, .errorJson "City parameter is required"⟩, false)
    else if days < 1 ∨ days > 5 then
      (⟨400, .errorJson "Days must be between 1 and 5"⟩, false)
    else
      match get_weather_forecast apiKey c days outcome with
      | (.ok d, called) => (⟨200, .json d⟩, called)
      | (.err e, called) => (⟨404, .errorJson e⟩, called)

/-! ### Wikipedia (`search_wikipedia`, `/api/wikipedia`) -/

/-- The fields `search_wikipedia` reads from the first (search) vendor call:
the `data['query']['search']` result list, reduced to the titles the code
uses. -/
structure WikiSearchBody where
  titles : List String
deriving DecidableEq

/-- The single page the code extracts from the second (content) vendor call
(`pages[list(pages.keys())[0]]`). -/
structure WikiContentPage where
  page_id : String
  title : String
  extract : Option String
  fullurl : Option String
deriving DecidableEq

/-- The projected `wiki_data` dictionary. -/
structure WikiData where
  title : String
  summary : String
  url : String
  page_id : String
deriving DecidableEq

/-- `search_wikipedia(query, sentences)` from `src/app.py`.  Two sequential
vendor calls share one `try` block, so an exception from either call reaches
the same handlers.  `sentences` only shapes the outbound request. -/
def search_wikipedia (query : String) (sentences : Int)
    (o1 : HttpOutcome WikiSearchBody) (o2 : HttpOutcome WikiContentPage) :
    ServiceResult WikiData :=
  match o1 with
  | .timeout _ => .err "Wikipedia request timeout"
  | .connErr _ => .err "Unable to connect to Wikipedia"
  | .otherErr e => .err ("Wikipedia API error: " ++ e)
  | .response s1 b1 =>
    if s1 ≠ 200 then .err "Wikipedia search failed"
    else
      match b1.titles with
      | [] => .err ("No Wikipedia article found for \"" ++ query ++ "\"")
      | _ :: _ =>
        match o2 with
        | .timeout _ => .err "Wikipedia request timeout"
        | .connErr _ => .err "Unable to connect to Wikipedia"
        | .otherErr e => .err ("Wikipedia API error: " ++ e)
        | .response s2 page =>
          if s2 ≠ 200 then .err "Failed to fetch Wikipedia content"
          else if page.page_id = "-1" then .err "Wikipedia page not found"
          else .ok { title := page.title,
                     summary := page.extract.getD "No summary available",
                     url := page.fullurl.getD "",
                     page_id := page.page_id }

/-- The `/api/wikipedia` endpoint (`get_wikipedia`).  As with `/api/forecast`,
`int(request.args.get('sentences', 3))` runs before the `query` check. -/
def get_wikipedia (query : Option String) (sentencesP : IntParam)
    (o1 : HttpOutcome WikiSearchBody) (o2 : HttpOutcome WikiContentPage) :
    HttpResp WikiData × Bool :=
  match sentencesP with
  | .invalid _ => (⟨400, .errorJson "Sentences parameter must be a number"⟩, false)
  | _ =>
    let sentences := sentencesP.getD 3
    let q := query.getD ""
    if q = "" then (⟨400, .errorJson "Query parameter is required"⟩, false)
    else if sentences < 1 ∨ sentences > 10 then
      (⟨400, .errorJson "Sentences must be between 1 and 10"⟩, false)
    else
      match search_wikipedia q sentences o1 o2 with
      | .ok d => (⟨200, .json d⟩, true)
      | .err e => (⟨404, .errorJson e⟩, true)

/-! ### News (`get_general_news`, `/api/news`) -/

/-- `NEWS_CONFIG['page_size']`. -/
def NEWS_CONFIG_page_size : Int := 10

/-- A vendor news article, with the optional fields the projection reads
(`source` is collapsed to its `name` field, as the code reads
`article.get('source', {}).get('name', 'Unknown')`). -/
structure NewsArticleIn where
  title : Option String
  description : Option String
  sourceName : Option String
  author : Option String
  url : Option String
  publishedAt : Option String
  urlToImage : Option String
deriving DecidableEq

/-- The projected article dictionary appended to `articles`. -/
structure NewsArticleOut where
  title : String
  description : String
  source : String
  author : String
  url : String
  published_at : String
  image_url : String
deriving DecidableEq

/-- The per-article projection in `get_general_news`'s loop. -/
def projectArticle (a : NewsArticleIn) : NewsArticleOut :=
  { title := a.title.getD "No title",
    description := a.description.getD "No description",
    source := a.sourceName.getD "Unknown",
    author := a.author.getD "Unknown",
    url := a.url.getD "",
    published_at := a.publishedAt.getD "",
    image_url := a.urlToImage.getD "" }

/-- The fields `get_general_news` reads from the vendor response body:
`data['status']`, `data.get('articles')`, `data.get('totalResults')`, and the
error body's `message`. -/
structure NewsBody where
  statusField : String
  articles : Option (List NewsArticleIn)
  totalResults : Option Int
  message : Option String
deriving DecidableEq

/-- The `data` dictionary of a successful `get_general_news` result. -/
structure NewsData where
  articles : List NewsArticleOut
  total_results : Int
  query : Option String
  category : Option String
deriving DecidableEq

/-- The outbound request parameters `get_general_news` sends that matter to
the claims: the `pageSize` it puts in `params`, and which vendor URL it hits
(`/everything` when `query` is truthy, else `/top-headlines`). -/
structure NewsRequestSent where
  pageSize : Int
  usesEverything : Bool
deriving DecidableEq

/-- `get_general_news(query, category, country, page_size)` from
`src/app.py`.  The second component is the outbound request actually sent
(`none` when the API key is missing and no vendor call is made).  The
`[:page_size]` slice is modelled by `List.take` (the endpoint guarantees
`page_size ≥ 1`). -/
def get_general_news (apiKey : String) (query category : Option String)
    (country : String) (page_size : Int) (outcome : HttpOutcome NewsBody) :
    ServiceResult NewsData × Option NewsRequestSent :=
  if apiKey = "" then (.err "News API key not configured", none)
  else
    let sent : NewsRequestSent :=
      { pageSize := min page_size NEWS_CONFIG_page_size,
        usesEverything := pyTruthy (query.getD "") }
    match outcome with
    | .timeout _ => (.err "News API timeout", some sent)
    | .connErr _ => (.err "Unable to connect to News API", some sent)
    | .otherErr e => (.err ("News API error: " ++ e), some sent)
    | .response s b =>
      if s ≠ 200 then (.err (b.message.getD "News API request failed"), some sent)
      else if b.statusField ≠ "ok" then (.err "Failed to fetch news", some sent)
      else
        match b.articles with
        | none => (.err "No news articles found", some sent)
        | some [] => (.err "No news articles found", some sent)
        | some arts =>
          let articles := (arts.take page_size.toNat).map projectArticle
          (.ok { articles := articles,
                 total_results := b.totalResults.getD articles.length,
                 query := query, category := category }, some sent)

/-- The `/api/news` endpoint (`get_news`). -/
def get_news (apiKey : String) (query category country : Option String)
    (pageSizeP : IntParam) (outcome : HttpOutcome NewsBody) :
    HttpResp NewsData × Option NewsRequestSent :=
  match pageSizeP with
  | .invalid _ => (⟨400, .errorJson "Page size must be a number"⟩, none)
  | _ =>
    let page_size := pageSizeP.getD 10
    if page_size < 1 ∨ page_size > 100 then
      (⟨400, .errorJson "Page size must be between 1 and 100"⟩, none)
    else
      match get_general_news apiKey query category (country.getD "us")
              page_size outcome with
      | (.ok d, sent) => (⟨200, .json d⟩, sent)
      | (.err e, sent) => (⟨404, .errorJson e⟩, sent)

/-! ### ElevenLabs TTS (`/api/tts`) -/

/-- The `/api/tts` request body: `data.get('text', '')` and
`data.get('voice_id', '21m00Tcm4TlvDq8ikWAM')`. -/
structure TtsReq where
  text : Option String
  voice_id : Option String
deriving DecidableEq

/-- What the handler reads from a non-200 ElevenLabs response:
`el_resp.text`, and the `detail` message when the body is JSON and carries
one (the `try: el_resp.json().get('detail', ...)` refinement; `none` when
that refinement leaves the raw text in place). -/
structure TtsErrBody where
  errText : String
  errDetail : Option String
deriving DecidableEq

/-- The `/api/tts` endpoint (`text_to_speech`).  On vendor status 200 the
handler streams the audio back (status 200, an `audio/mpeg` body). -/
def text_to_speech (apiKey : String) (req : TtsReq)
    (outcome : HttpOutcome TtsErrBody) : HttpResp Unit × Bool :=
  let text := req.text.getD ""
  if text = "" then (⟨400, .errorJson "Text is required"⟩, false)
  else if pyStrip apiKey = "" then
    (⟨500, .errorJson "ElevenLabs API key not configured"⟩, false)
  else
    match outcome with
    | .response s b =>
      if s ≠ 200 then
        (⟨s, .errorJson ("ElevenLabs error (" ++ toString s ++ "): "
            ++ b.errDetail.getD b.errText)⟩, true)
      else (⟨200, .audio⟩, true)
    | .timeout _ => (⟨504, .errorJson "ElevenLabs timeout"⟩, true)
    | .connErr _ => (⟨503, .errorJson "Unable to connect to ElevenLabs"⟩, true)
    | .otherErr e => (⟨500, .errorJson ("TTS error: " ++ e)⟩, true)

/-! ### Azure STT (`/api/stt`) -/

/-- What `speech_to_text` reads from the Azure response: the raw
`response.text` (used in the non-200 error message) and, on 200, the parsed
`RecognitionStatus` / `DisplayText` fields (with their `.get(..., '')`
defaults). -/
structure SttBody where
  text : String
  recognitionStatus : String
  displayText : String
deriving DecidableEq

/-- The steps of an `/api/stt` request after the file check: the ffmpeg
conversion can fail (`subprocess.CalledProcessError`), otherwise the vendor
call runs.  Note the handler has no dedicated timeout/connection arms: a
`requests` exception falls into the generic `except Exception` arm, which
returns `str(e)` with status 500. -/
inductive SttFlow where
  | ffmpegFail
  | vendor (outcome : HttpOutcome SttBody)
deriving DecidableEq

/-- The `/api/stt` endpoint (`speech_to_text`).  `hasAudio` is
`'audio' in request.files`.  The `Bool` records whether the Azure call was
issued. -/
def speech_to_text (hasAudio : Bool) (flow : SttFlow) :
    HttpResp String × Bool :=
  if ¬ hasAudio then (⟨400, .errorJson "Audio file is required"⟩, false)
  else
    match flow with
    | .ffmpegFail => (⟨500, .errorJson "Audio conversion failed"⟩, false)
    | .vendor (.timeout e) => (⟨500, .errorJson e⟩, true)
    | .vendor (.connErr e) => (⟨500, .errorJson e⟩, true)
    | .vendor (.otherErr e) => (⟨500, .errorJson e⟩, true)
    | .vendor (.response s b) =>
      if s ≠ 200 then
        (⟨s, .errorJson ("Azure STT error (" ++ toString s ++ "): " ++ b.text)⟩,
         true)
      else
        let transcript := pyStrip b.displayText
        if b.recognitionStatus ≠ "Success" ∨ transcript = "" then
          (⟨422, .errorJson ("Recognition failed: " ++ b.recognitionStatus)⟩, true)
        else (⟨200, .json transcript⟩, true)

/-! ### Revinci token cache, chat API, `/api/chat` -/

/-- `_revinci_token_cache`: `{'token': str, 'expires_at': float}`. -/
structure TokenCache where
  token : String
  expires_at : ℚ
deriving DecidableEq

/-- The fields read from the Keycloak token response:
`access_token` and `expires_in` (defaulted to 300 when absent). -/
structure TokenBody where
  access_token : String
  expires_in : Option ℚ
deriving DecidableEq

/-- `get_revinci_token()` from `src/app.py`.  `now` is `time.time()`.
Returns the bearer token plus the cache after the call; `.error` models the
exception that propagates when the Keycloak request fails
(`raise_for_status` raises for status ≥ 400, and `requests` exceptions
propagate), in which case the cache is unchanged. -/
def get_revinci_token (cache : TokenCache) (now : ℚ)
    (fetch : HttpOutcome TokenBody) : Except String (String × TokenCache) :=
  if cache.token ≠ "" ∧ cache.expires_at - now > 60 then
    .ok (cache.token, cache)
  else
    match fetch with
    | .response s b =>
      if 400 ≤ s then .error ("HTTP error " ++ toString s)
      else .ok (b.access_token,
                { token := b.access_token,
                  expires_at := now + b.expires_in.getD 300 })
    | .timeout e => .error e
    | .connErr e => .error e
    | .otherErr e => .error e

/-- The fields read from a 200 Revinci response:
`data.get('content', '')` and `data.get('conversation_id', '')`. -/
structure RevBody where
  content : Option String
  conversation_id : Option String
deriving DecidableEq

/-- The dictionary `call_revinci_api` returns. -/
inductive RevinciResult where
  | ok (content conversation_id : String)
  | err (msg : String)
deriving DecidableEq

/-- `call_revinci_api(user_input, conversation_id)` from `src/app.py`.
`tokenFetch` is the Keycloak call's outcome, `apiOutcome` the Revinci call's.
All exceptions (including those from `get_revinci_token`) are caught by the
`except Exception` arm and become `{'success': False, 'error': str(e)}`.
The cache after the call is returned alongside the result. -/
def call_revinci_api (cache : TokenCache) (now : ℚ)
    (tokenFetch : HttpOutcome TokenBody) (apiOutcome : HttpOutcome RevBody)
    (user_input conversation_id : String) : RevinciResult × TokenCache :=
  match get_revinci_token cache now tokenFetch with
  | .error e => (.err e, cache)
  | .ok (_, cache2) =>
    match apiOutcome with
    | .response s b =>
      if s = 200 then
        (.ok (b.content.getD "") (b.conversation_id.getD ""), cache2)
      else (.err ("Status " ++ toString s), cache2)
    | .timeout e => (.err e, cache2)
    | .connErr e => (.err e, cache2)
    | .otherErr e => (.err e, cache2)

/-- `revinci_conversation_ids` modelled as an association list
(`session_id -> conversation_id`). -/
abbrev ConvIds := List (String × String)

/-- Python dict lookup `d.get(k)`. -/
def lookupConv : ConvIds → String → Option String
  | [], _ => none
  | (k', v') :: rest, k => if k' = k then some v' else lookupConv rest k

/-- Python dict assignment `d[k] = v`: overwrite in place or append. -/
def insertConv : ConvIds → String → String → ConvIds
  | [], k, v => [(k, v)]
  | (k', v') :: rest, k, v =>
    if k' = k then (k, v) :: rest else (k', v') :: insertConv rest k v

/-- The `/api/chat` (and `/api/opportunity`) request body. -/
structure ChatReq where
  message : Option String
  user_input : Option String
  session_id : Option String
  conversation_id : Option String
deriving DecidableEq

/-- `data.get('message') or data.get('user_input', '')`. -/
def chatMessage (req : ChatReq) : String :=
  pyOrStr (req.message.getD "") (req.user_input.getD "")

/-- `data.get('session_id') or data.get('conversation_id', 'default')`. -/
def chatSession (req : ChatReq) : String :=
  pyOrStr (req.session_id.getD "") (req.conversation_id.getD "default")

/-- The helper functions the chat handler could call; the embedding of
`chat` logs the ones its body actually invokes. -/
inductive HelperCall where
  | revinciQuery
  | weatherDetect
  | wikipediaDetect
  | newsDetect
deriving DecidableEq

/-- The success body of `/api/chat`:
`{'response': ..., 'session_id': ...}`. -/
structure ChatOk where
  response : String
  session_id : String
deriving DecidableEq

/-- The full result of one `/api/chat` request: the HTTP response, the
`revinci_conversation_ids` dict after the request, the token cache after the
request, and the log of helper calls the handler body made. -/
structure ChatResult where
  resp : HttpResp ChatOk
  ids : ConvIds
  cache : TokenCache
  calls : List HelperCall
deriving DecidableEq

/-- The `/api/chat` / `/api/opportunity` endpoint (`chat`).  The handler
forwards the message to `call_revinci_api` with the session's stored
conversation id (`revinci_conversation_ids.get(session_id, '')`); on success
it stores the returned conversation id; on failure it returns 502 and leaves
the dict untouched.  The intent-detection helpers are not called anywhere in
the handler body. -/
def chat (req : ChatReq) (ids : ConvIds) (cache : TokenCache) (now : ℚ)
    (tokenFetch : HttpOutcome TokenBody) (apiOutcome : HttpOutcome RevBody) :
    ChatResult :=
  let message := chatMessage req
  let session_id := chatSession req
  if message = "" then
    ⟨⟨400, .errorJson "Message is required"⟩, ids, cache, []⟩
  else
    let revinci_conv_id := (lookupConv ids session_id).getD ""
    match call_revinci_api cache now tokenFetch apiOutcome message
            revinci_conv_id with
    | (.ok content conv, cache2) =>
      ⟨⟨200, .json ⟨content, session_id⟩⟩, insertConv ids session_id conv,
       cache2, [.revinciQuery]⟩
    | (.err _, cache2) =>
      ⟨⟨502, .errorJson "Failed to get a response. Please try again."⟩, ids,
       cache2, [.revinciQuery]⟩

/-! ### `/api/clear` and `/api/health` -/

/-- A `conversation_sessions` history entry (`{'role': ..., 'content': ...}`). -/
structure ChatMessage where
  role : String
  content : String
deriving DecidableEq

/-- `conversation_sessions` modelled as an association list. -/
abbrev Sessions := List (String × List ChatMessage)

/-- Dict lookup for `conversation_sessions`. -/
def lookupSess : Sessions → String → Option (List ChatMessage)
  | [], _ => none
  | (k', v') :: rest, k => if k' = k then some v' else lookupSess rest k

/-- Dict assignment for `conversation_sessions`. -/
def insertSess : Sessions → String → List ChatMessage → Sessions
  | [], k, v => [(k, v)]
  | (k', v') :: rest, k, v =>
    if k' = k then (k, v) :: rest else (k', v') :: insertSess rest k v

/-- The opening line of `SYSTEM_PROMPT` stands in for the full prompt text;
only its identity matters to the model. -/
def SYSTEM_PROMPT : String :=
  "You are a helpful AI assistant with access to real-time weather information, Wikipedia knowledge, and news articles."

/-- The `/api/clear` endpoint (`clear_conversation`).  It resets the
session's entry in `conversation_sessions` (when present) and touches
nothing else — in particular `revinci_conversation_ids` is not read or
written. -/
def clear_conversation (req_session_id : Option String) (ids : ConvIds)
    (sessions : Sessions) : HttpResp String × ConvIds × Sessions :=
  let session_id := req_session_id.getD "default"
  let sessions2 :=
    if (lookupSess sessions session_id).isSome then
      insertSess sessions session_id [⟨"system", SYSTEM_PROMPT⟩]
    else sessions
  (⟨200, .json "Conversation cleared successfully"⟩, ids, sessions2)

/-- The `/api/health` response body. -/
structure HealthResp where
  status : String
  service : String
  azure_openai : String
  weather_api : String
  wikipedia_api : String
  news_api : String
  azure_stt : String
  elevenlabs_tts : String
  active_sessions : Nat
deriving DecidableEq

/-- The `/api/health` endpoint (`health_check`).  The weather/news checks
compare the configured keys against placeholder literals, not against the
empty string. -/
def health_check (weatherKey newsKey azureSpeechKey : String)
    (sessions : Sessions) : HealthResp :=
  let weather_api_configured := weatherKey ≠ "YOUR_OPENWEATHERMAP_API_KEY"
  let news_api_configured := newsKey ≠ "YOUR_NEWSAPI_KEY"
  { status := "healthy",
    service := "Conversational AI Assistant",
    azure_openai := "configured",
    weather_api := if weather_api_configured then "configured" else "not configured",
    wikipedia_api := "available",
    news_api := if news_api_configured then "configured" else "not configured",
    azure_stt := if pyTruthy azureSpeechKey then "configured" else "not configured",
    elevenlabs_tts := "configured",
    active_sessions := sessions.length }

/-! ### Intent-detection helpers (unused by the chat endpoint) -/

/-- Python `pat in s` for a nonempty pattern. -/
def strContains (s pat : String) : Bool := (s.splitOn pat).length > 1

/-- Python `s.split()` (split on whitespace, dropping empty words). -/
def pySplit (s : String) : List String :=
  (s.split (fun c => c.isWhitespace)).filter (fun w => w ≠ "")

/-- Python `s.rstrip('?,!.')`. -/
def pyRstripPunct (s : String) : String :=
  s.dropRightWhile (fun c => c == '?' || c == ',' || c == '!' || c == '.')

/-- Python `s.split(pat, 1)`. -/
def pySplitOnce (s pat : String) : List String :=
  match s.splitOn pat with
  | [] => [s]
  | [x] => [x]
  | x :: rest => [x, String.intercalate pat rest]

/-- `detect_weather_query`'s return dictionary. -/
structure WeatherIntent where
  is_weather : Bool
  city : Option String
deriving DecidableEq

/-- The stop words ending a city-name scan in `detect_weather_query`. -/
def cityStopWords : List String :=
  ["the", "weather", "forecast", "today", "tomorrow", "like"]

/-- The inner loop of `detect_weather_query`: scan at most three words after
a preposition, strip trailing punctuation, stop at a stop word. -/
def collectCityParts (ws : List String) : List String :=
  ((ws.take 3).map pyRstripPunct).takeWhile
    (fun w => ¬ cityStopWords.contains w.toLower)

/-- The outer loop of `detect_weather_query`: find the first preposition
followed by a nonempty city-part scan. -/
def findCity : List String → Option String
  | [] => none
  | w :: rest =>
    if (["in", "at", "for", "of"].contains w.toLower) ∧ rest ≠ [] then
      match collectCityParts rest with
      | [] => findCity rest
      | parts => some (String.intercalate " " parts)
    else findCity rest

/-- `WEATHER_KEYWORDS` of `detect_weather_query`. -/
def weather_keywords : List String :=
  ["weather", "temperature", "forecast", "rain", "raining", "rainy",
   "sunny", "cloudy", "humidity", "humid", "wind", "windy", "climate",
   "hot", "cold", "warm", "cool", "snow", "snowing", "storm", "stormy",
   "celsius", "fahrenheit", "degrees", "umbrella", "jacket"]

/-- `detect_weather_query(message)` from `src/app.py`. -/
def detect_weather_query (message : String) : WeatherIntent :=
  let message_lower := message.toLower
  if ¬ weather_keywords.any (fun k => strContains message_lower k) then
    ⟨false, none⟩
  else
    match findCity (pySplit message) with
    | some city => ⟨true, some city⟩
    | none => ⟨true, none⟩

/-- `detect_wikipedia_query`'s return dictionary. -/
structure WikiIntent where
  is_wikipedia : Bool
  query : Option String
deriving DecidableEq

/-- `wikipedia_triggers` of `detect_wikipedia_query`. -/
def wikipedia_triggers : List String :=
  ["who is", "who was", "who are", "what is", "what was", "what are",
   "tell me about", "information about", "explain", "define",
   "wikipedia", "wiki", "search for", "look up",
   "history of", "biography of", "facts about"]

/-- `detect_wikipedia_query(message)` from `src/app.py`. -/
def detect_wikipedia_query (message : String) : WikiIntent :=
  let ml := message.toLower
  if ¬ wikipedia_triggers.any (fun t => strContains ml t) then ⟨false, none⟩
  else
    match wikipedia_triggers.findSome? (fun t =>
        if strContains ml t then
          match pySplitOnce ml t with
          | [_, after] =>
            let q := (pyStrip after).dropRightWhile
              (fun c => c == '?' || c == '.' || c == ',' || c == '!')
            if q ≠ "" then some q else none
          | _ => none
        else none) with
    | some q => ⟨true, some q⟩
    | none => ⟨true, none⟩

/-- `detect_news_query`'s return dictionary. -/
structure NewsIntent where
  is_news : Bool
  is_financial : Bool
  query : Option String
deriving DecidableEq

/-- `news_keywords` of `detect_news_query`. -/
def news_keywords : List String :=
  ["news", "headline", "headlines", "latest news", "breaking news",
   "current events", "today news", "recent news", "news about",
   "whats happening", "what\x27s happening", "tell me about news",
   "any news", "top news", "trending news"]

/-- `financial_keywords` of `detect_news_query`. -/
def financial_keywords : List String :=
  ["financial news", "business news", "market news", "stock news",
   "economy news", "finance news", "trading news", "wall street"]

/-- The query-cleaning loop of `detect_news_query`: remove filler words and
punctuation, stripping whitespace after each removal. -/
def cleanNewsQuery (s : String) : String :=
  (["about", "on", "regarding", "related to", "?", ".", "!"].foldl
    (fun acc w => pyStrip (acc.replace w "")) (pyStrip s))

/-- `detect_news_query(message)` from `src/app.py`. -/
def detect_news_query (message : String) : NewsIntent :=
  let ml := message.toLower
  let is_news_query := news_keywords.any (fun k => strContains ml k)
  let is_financial := financial_keywords.any (fun k => strContains ml k)
  if ¬ is_news_query ∧ ¬ is_financial then ⟨false, false, none⟩
  else
    let query := (news_keywords ++ financial_keywords).findSome? (fun k =>
      if strContains ml k then
        match pySplitOnce ml k with
        | [_, after] =>
          let q := cleanNewsQuery after
          if q ≠ "" then some q else none
        | _ => none
      else none)
    ⟨true, is_financial, query⟩

/-- Whether a response body is a JSON error object (`{'error': ...}`). -/
def Body.isErrorBody : Body α → Bool
  | .errorJson _ => true
  | _ => false

/-- The vendor article list carried by a news-call outcome (empty for
exception outcomes). -/
def newsOutcomeArticles : HttpOutcome NewsBody → List NewsArticleIn
  | .response _ b => b.articles.getD []
  | _ => []

/-! ## Helper lemmas -/

/-- Dict assignment then lookup at the same key yields the assigned value. -/
theorem lookupConv_insertConv (m : ConvIds) (k v : String) :
    lookupConv (insertConv m k v) k = some v := by
  induction m with
  | nil => simp [insertConv, lookupConv]
  | cons p rest ih =>
    by_cases h : p.1 = k <;> simp [insertConv, lookupConv, h, ih]

/-- Dict assignment leaves every other key's binding unchanged. -/
theorem lookupConv_insertConv_ne (m : ConvIds) (k k' v : String)
    (h : k' ≠ k) : lookupConv (insertConv m k v) k' = lookupConv m k' := by
  have h' : ¬ (k = k') := fun e => h e.symm
  induction m with
  | nil => simp [insertConv, lookupConv, h']
  | cons p rest ih =>
    by_cases hp : p.1 = k
    · simp [insertConv, lookupConv, hp, h']
    · simp [insertConv, lookupConv, hp, ih]

/-- `call_revinci_api`'s observable result does not depend on the forwarded
`user_input` (the input only shapes the outbound payload). -/
theorem call_revinci_api_input_irrelevant (cache : TokenCache) (now : ℚ)
    (tf : HttpOutcome TokenBody) (ao : HttpOutcome RevBody)
    (u₁ u₂ cid : String) :
    call_revinci_api cache now tf ao u₁ cid =
    call_revinci_api cache now tf ao u₂ cid := rfl

/-- A warm-cache Revinci call (token `"tok"` valid until 100, `now = 0`)
with a 200 vendor response succeeds with the vendor's content and
conversation id, leaving the cache unchanged. -/
theorem call_warm_ok (u cid : String) :
    call_revinci_api ⟨"tok", 100⟩ 0 (.timeout "")
      (.response 200 ⟨some "hello", some "c42"⟩) u cid =
      (.ok "hello" "c42", ⟨"tok", 100⟩) := by
  have h : ("tok" : String) ≠ "" ∧ (100 : ℚ) - 0 > 60 := ⟨by decide, by norm_num⟩
  have h2 : (60 : ℚ) < 100 := by norm_num
  simp [call_revinci_api, get_revinci_token, h, h2]

/-- A warm-cache Revinci call with a 500 vendor response fails with
`Status 500`, leaving the cache unchanged. -/
theorem call_warm_err (u cid : String) :
    call_revinci_api ⟨"tok", 100⟩ 0 (.timeout "")
      (.response 500 ⟨none, none⟩) u cid =
      (.err "Status 500", ⟨"tok", 100⟩) := by
  have h : ("tok" : String) ≠ "" ∧ (100 : ℚ) - 0 > 60 := ⟨by decide, by norm_num⟩
  have h2 : (60 : ℚ) < 100 := by norm_num
  simp [call_revinci_api, get_revinci_token, h, h2]
  rfl

/-! ## Claims -/

/-- C1, counterexample: the claim says a vendor timeout on `/api/weather` (a
server-side failure) yields a response status in {500, 502, 503, 504}; in
fact `get_weather` maps every `get_weather_data` failure, timeouts included,
to 404. -/
theorem c1_counterexample :
    (get_weather "key" (some "Paris") (HttpOutcome.timeout (α := Unit) "")).1.status = 404 ∧
    ¬ ((get_weather "key" (some "Paris") (HttpOutcome.timeout (α := Unit) "")).1.status = 500 ∨
       (get_weather "key" (some "Paris") (HttpOutcome.timeout (α := Unit) "")).1.status = 502 ∨
       (get_weather "key" (some "Paris") (HttpOutcome.timeout (α := Unit) "")).1.status = 503 ∨
       (get_weather "key" (some "Paris") (HttpOutcome.timeout (α := Unit) "")).1.status = 504) := by
  decide

/-- C1 (amended): for every `/api/weather` request where the vendor call
fails with a timeout or connection error, the endpoint returns HTTP 404 with
the corresponding fixed JSON error body — not a 5xx status — and `/api/forecast`
behaves the same way (its endpoint maps every helper failure to 404). -/
theorem c1_weather_vendor_failure_is_404 (key c m : String)
    (hk : key ≠ "") (hc : c ≠ "") :
    (get_weather (α := Unit) key (some c) (.timeout m)).1 =
      ⟨404, .errorJson "Weather service timeout"⟩ ∧
    (get_weather (α := Unit) key (some c) (.connErr m)).1 =
      ⟨404, .errorJson "Unable to connect to weather service"⟩ ∧
    (get_forecast (α := Unit) key (some c) (.val 3) (.timeout m)).1.status = 404 ∧
    (get_forecast (α := Unit) key (some c) (.val 3) (.connErr m)).1.status = 404 := by
  refine ⟨?_, ?_, ?_, ?_⟩ <;>
    simp [get_weather, get_forecast, get_weather_data, get_weather_forecast,
      IntParam.getD, hk, hc]

/-- C1 witness: the amended theorem applied at a concrete request. -/
theorem c1_witness :
    (get_weather (α := Unit) "key" (some "Paris") (.timeout "")).1 =
      ⟨404, .errorJson "Weather service timeout"⟩ :=
  (c1_weather_vendor_failure_is_404 "key" "Paris" "" (by decide) (by decide)).1

/-- C2: `get_revinci_token` returns the cached token (leaving the cache
unchanged, and with the token unexpired) exactly when the cached token is
nonempty and expires more than 60 seconds after `now`; otherwise, when the
Keycloak fetch succeeds (`raise_for_status` passes, i.e. status < 400), it
returns the fresh token and the cache holds that token with expiry
`now + expires_in` (default 300). -/
theorem c2_token_cache (cache : TokenCache) (now : ℚ)
    (fetch : HttpOutcome TokenBody) :
    (cache.token ≠ "" ∧ cache.expires_at - now > 60 →
      get_revinci_token cache now fetch = .ok (cache.token, cache) ∧
      now < cache.expires_at) ∧
    (¬ (cache.token ≠ "" ∧ cache.expires_at - now > 60) →
      ∀ s b, s < 400 → fetch = .response s b →
        get_revinci_token cache now fetch =
          .ok (b.access_token,
               { token := b.access_token,
                 expires_at := now + b.expires_in.getD 300 })) := by
  constructor
  · intro h
    refine ⟨?_, by linarith [h.2]⟩
    simp [get_revinci_token, h]
  · intro h s b hs hf
    subst hf
    simp [get_revinci_token, h, Nat.not_le.mpr hs]

/-- C2 witness: the cached branch at a warm cache and the refresh branch at
an empty cache, both at concrete inputs. -/
theorem c2_witness :
    get_revinci_token ⟨"tok", 100⟩ 0 (.timeout "") =
      .ok ("tok", ⟨"tok", 100⟩) ∧
    get_revinci_token ⟨"", 0⟩ 0 (.response 200 ⟨"newtok", some 250⟩) =
      .ok ("newtok", ⟨"newtok", (0 : ℚ) + (250 : ℚ)⟩) := by
  constructor
  · exact ((c2_token_cache ⟨"tok", 100⟩ 0 (.timeout "")).1
      ⟨by decide, by norm_num⟩).1
  · exact (c2_token_cache ⟨"", 0⟩ 0 _).2 (by norm_num) 200
      ⟨"newtok", some 250⟩ (by norm_num) rfl

/-- C3, counterexample: the claim says the mapping entry "is created on the
first chat call for that session"; but a first chat call whose Revinci call
fails (here: vendor status 500) creates no entry at all. -/
theorem c3_counterexample :
    lookupConv (chat ⟨some "hi", none, some "s1", none⟩ [] ⟨"tok", 100⟩ 0
      (.timeout "") (.response 500 ⟨none, none⟩)).ids "s1" = none := by
  have h : ("tok" : String) ≠ "" ∧ (100 : ℚ) - 0 > 60 := ⟨by decide, by norm_num⟩
  simp [chat, chatMessage, chatSession, pyOrStr, call_revinci_api,
    get_revinci_token, h, lookupConv]

/-- C3 (amended): for every session identifier, the mapping entry is created
on the first successful chat call for that session and overwritten with the
vendor-returned conversation id on each subsequent successful chat call;
failed chat calls leave the mapping unchanged; no entry (for the session at
hand or any other) is ever removed, and the session-clear endpoint leaves the
mapping untouched. -/
theorem c3_conversation_id_mapping (req : ChatReq) (ids : ConvIds)
    (cache : TokenCache) (now : ℚ) (tf : HttpOutcome TokenBody)
    (ao : HttpOutcome RevBody) (h : chatMessage req ≠ "") :
    (∀ content conv cache2,
      call_revinci_api cache now tf ao (chatMessage req)
          ((lookupConv ids (chatSession req)).getD "") = (.ok content conv, cache2) →
      lookupConv (chat req ids cache now tf ao).ids (chatSession req) = some conv ∧
      ∀ k, k ≠ chatSession req →
        lookupConv (chat req ids cache now tf ao).ids k = lookupConv ids k) ∧
    (∀ e cache2,
      call_revinci_api cache now tf ao (chatMessage req)
          ((lookupConv ids (chatSession req)).getD "") = (.err e, cache2) →
      (chat req ids cache now tf ao).ids = ids) ∧
    (∀ sid sessions, (clear_conversation sid ids sessions).2.1 = ids) := by
  refine ⟨?_, ?_, ?_⟩
  · intro content conv cache2 hcall
    have : chat req ids cache now tf ao =
        ⟨⟨200, .json ⟨content, chatSession req⟩⟩,
         insertConv ids (chatSession req) conv, cache2, [.revinciQuery]⟩ := by
      simp [chat, h, hcall]
    rw [this]
    exact ⟨lookupConv_insertConv _ _ _,
      fun k hk => lookupConv_insertConv_ne _ _ _ _ hk⟩
  · intro e cache2 hcall
    simp [chat, h, hcall]
  · intro sid sessions
    simp [clear_conversation]

/-- C3 witness: a successful first chat call for session `s1` (warm token
cache, Revinci returns conversation id `c42`) creates the entry `s1 ↦ c42`. -/
theorem c3_witness :
    lookupConv (chat ⟨some "hi", none, some "s1", none⟩ [] ⟨"tok", 100⟩ 0
      (.timeout "") (.response 200 ⟨some "hello", some "c42"⟩)).ids
      (chatSession ⟨some "hi", none, some "s1", none⟩) = some "c42" :=
  ((c3_conversation_id_mapping ⟨some "hi", none, some "s1", none⟩ []
      ⟨"tok", 100⟩ 0 (.timeout "") (.response 200 ⟨some "hello", some "c42"⟩)
      (by decide)).1 "hello" "c42" ⟨"tok", 100⟩ (call_warm_ok _ _)).1

/-- C8: for every `/api/chat` request whose Revinci call fails, the endpoint
returns HTTP 502 with the fixed error body, and the session-to-conversation-id
mapping is left unchanged. -/
theorem c8_chat_failure_502 (req : ChatReq) (ids : ConvIds)
    (cache : TokenCache) (now : ℚ) (tf : HttpOutcome TokenBody)
    (ao : HttpOutcome RevBody) (h : chatMessage req ≠ "")
    (e : String) (cache2 : TokenCache)
    (hcall : call_revinci_api cache now tf ao (chatMessage req)
        ((lookupConv ids (chatSession req)).getD "") = (.err e, cache2)) :
    (chat req ids cache now tf ao).resp =
      ⟨502, .errorJson "Failed to get a response. Please try again."⟩ ∧
    (chat req ids cache now tf ao).ids = ids := by
  constructor <;> simp [chat, h, hcall]

/-- C8 witness: a concrete chat request whose Revinci call returns vendor
status 500 yields HTTP 502 and leaves a pre-existing mapping unchanged. -/
theorem c8_witness :
    (chat ⟨some "hi", none, some "s1", none⟩ [("s1", "c0")] ⟨"tok", 100⟩ 0
      (.timeout "") (.response 500 ⟨none, none⟩)).resp =
      ⟨502, .errorJson "Failed to get a response. Please try again."⟩ ∧
    (chat ⟨some "hi", none, some "s1", none⟩ [("s1", "c0")] ⟨"tok", 100⟩ 0
      (.timeout "") (.response 500 ⟨none, none⟩)).ids = [("s1", "c0")] :=
  c8_chat_failure_502 ⟨some "hi", none, some "s1", none⟩ [("s1", "c0")]
    ⟨"tok", 100⟩ 0 (.timeout "") (.response 500 ⟨none, none⟩) (by decide)
    "Status 500" ⟨"tok", 100⟩ (call_warm_err _ _)

/-- C4: every request missing its required parameter gets HTTP 400 with a
JSON error body and no vendor call: empty/absent message on `/api/chat`
(state and cache also untouched), missing city on `/api/weather` and
`/api/forecast`, missing query on `/api/wikipedia` (for any well-formed or
absent numeric parameter), empty text on `/api/tts`, missing audio file on
`/api/stt`. -/
theorem c4_required_param_400 (ids : ConvIds) (cache : TokenCache) (now : ℚ)
    (tf : HttpOutcome TokenBody) (ao : HttpOutcome RevBody)
    (req : ChatReq) (hm : chatMessage req = "")
    (wKey : String) (wOut : HttpOutcome Unit)
    (fKey : String) (fDays : Int) (fOut : HttpOutcome (List Unit))
    (wsP : IntParam) (o1 : HttpOutcome WikiSearchBody)
    (o2 : HttpOutcome WikiContentPage)
    (tKey : String) (tReq : TtsReq) (htx : tReq.text.getD "" = "")
    (tOut : HttpOutcome TtsErrBody) (sttFlow : SttFlow) :
    (chat req ids cache now tf ao =
      ⟨⟨400, .errorJson "Message is required"⟩, ids, cache, []⟩) ∧
    (get_weather wKey none wOut =
      (⟨400, .errorJson "City parameter is required"⟩, false)) ∧
    (get_forecast fKey none (.val fDays) fOut =
      (⟨400, .errorJson "City parameter is required"⟩, false)) ∧
    ((get_wikipedia none wsP o1 o2).1.status = 400 ∧
     ((get_wikipedia none wsP o1 o2).1.body.isErrorBody) = true ∧
     (get_wikipedia none wsP o1 o2).2 = false) ∧
    (text_to_speech tKey tReq tOut =
      (⟨400, .errorJson "Text is required"⟩, false)) ∧
    (speech_to_text false sttFlow =
      (⟨400, .errorJson "Audio file is required"⟩, false)) := by
  refine ⟨?_, ?_, ?_, ?_, ?_, ?_⟩
  · simp [chat, hm]
  · simp [get_weather]
  · simp [get_forecast]
  · cases wsP <;> simp [get_wikipedia, Body.isErrorBody, IntParam.getD]
  · simp [text_to_speech, htx]
  · simp [speech_to_text]

/-- C4 witness: the theorem at concrete requests (absent message, absent
parameters, empty text, no audio file). -/
theorem c4_witness :
    chat ⟨none, none, some "s1", none⟩ [] ⟨"", 0⟩ 0 (.timeout "") (.timeout "") =
      ⟨⟨400, .errorJson "Message is required"⟩, [], ⟨"", 0⟩, []⟩ ∧
    get_weather "key" none (.timeout (α := Unit) "") =
      (⟨400, .errorJson "City parameter is required"⟩, false) :=
  ⟨(c4_required_param_400 [] ⟨"", 0⟩ 0 (.timeout "") (.timeout "")
      ⟨none, none, some "s1", none⟩ (by decide) "key" (.timeout "")
      "key" 5 (.timeout "") .absent (.timeout "") (.timeout "")
      "key" ⟨none, none⟩ (by decide) (.timeout "") .ffmpegFail).1,
   (c4_required_param_400 [] ⟨"", 0⟩ 0 (.timeout "") (.timeout "")
      ⟨none, none, some "s1", none⟩ (by decide) "key" (.timeout "")
      "key" 5 (.timeout "") .absent (.timeout "") (.timeout "")
      "key" ⟨none, none⟩ (by decide) (.timeout "") .ffmpegFail).2.1⟩

/-- C5: each cited vendor call that raises a timeout or connection exception
is caught and mapped to its fixed user-facing error string:
`get_weather_data` returns the two fixed weather strings, `/api/tts` returns
504/503 with the two fixed ElevenLabs strings, and `search_wikipedia`
returns the two fixed Wikipedia strings whichever of its two vendor calls
raised.  No exception escapes: each function returns an ordinary value. -/
theorem c5_exception_fixed_strings
    (wKey city m : String) (hw : wKey ≠ "")
    (tKey : String) (tReq : TtsReq) (ht : tReq.text.getD "" ≠ "")
    (htk : pyStrip tKey ≠ "")
    (q : String) (sentences : Int) (o2 : HttpOutcome WikiContentPage)
    (b1 : WikiSearchBody) (t : String) (ts : List String)
    (hb : b1.titles = t :: ts) :
    (get_weather_data (α := Unit) wKey city (.timeout m)).1 =
      .err "Weather service timeout" ∧
    (get_weather_data (α := Unit) wKey city (.connErr m)).1 =
      .err "Unable to connect to weather service" ∧
    (text_to_speech tKey tReq (.timeout m)).1 =
      ⟨504, .errorJson "ElevenLabs timeout"⟩ ∧
    (text_to_speech tKey tReq (.connErr m)).1 =
      ⟨503, .errorJson "Unable to connect to ElevenLabs"⟩ ∧
    search_wikipedia q sentences (.timeout m) o2 =
      .err "Wikipedia request timeout" ∧
    search_wikipedia q sentences (.connErr m) o2 =
      .err "Unable to connect to Wikipedia" ∧
    search_wikipedia q sentences (.response 200 b1) (.timeout m) =
      .err "Wikipedia request timeout" ∧
    search_wikipedia q sentences (.response 200 b1) (.connErr m) =
      .err "Unable to connect to Wikipedia" := by
  refine ⟨?_, ?_, ?_, ?_, ?_, ?_, ?_, ?_⟩ <;>
    simp [get_weather_data, text_to_speech, search_wikipedia, hw, ht, htk, hb]

/-- C5 witness: the theorem at concrete inputs. -/
theorem c5_witness :
    (get_weather_data (α := Unit) "key" "Paris" (.timeout "")).1 =
      .err "Weather service timeout" ∧
    (text_to_speech "key" ⟨some "hello", none⟩ (.timeout "")).1 =
      ⟨504, .errorJson "ElevenLabs timeout"⟩ :=
  ⟨(c5_exception_fixed_strings "key" "Paris" "" (by decide) "key"
      ⟨some "hello", none⟩ (by decide) (by decide) "q" 3 (.timeout "")
      ⟨["Title"]⟩ "Title" [] rfl).1,
   (c5_exception_fixed_strings "key" "Paris" "" (by decide) "key"
      ⟨some "hello", none⟩ (by decide) (by decide) "q" 3 (.timeout "")
      ⟨["Title"]⟩ "Title" [] rfl).2.2.1⟩

/-- C6: the chat handler never invokes the intent-detection helpers (its
helper-call log contains no detector entry on any request), and its entire
result — response, stored conversation id, cache and calls — is the same for
any two nonempty messages given the same vendor outcomes: the response is
computed solely by forwarding the text to the Revinci API. -/
theorem c6_chat_ignores_detectors (req : ChatReq) (ids : ConvIds)
    (cache : TokenCache) (now : ℚ) (tf : HttpOutcome TokenBody)
    (ao : HttpOutcome RevBody) :
    (HelperCall.weatherDetect ∉ (chat req ids cache now tf ao).calls ∧
     HelperCall.wikipediaDetect ∉ (chat req ids cache now tf ao).calls ∧
     HelperCall.newsDetect ∉ (chat req ids cache now tf ao).calls) ∧
    (∀ m₁ m₂ u sid cid, m₁ ≠ "" → m₂ ≠ "" →
      chat ⟨some m₁, u, sid, cid⟩ ids cache now tf ao =
      chat ⟨some m₂, u, sid, cid⟩ ids cache now tf ao) := by
  constructor
  · unfold chat
    rcases h : call_revinci_api cache now tf ao (chatMessage req)
        ((lookupConv ids (chatSession req)).getD "") with ⟨res, cache2⟩
    by_cases hm : chatMessage req = "" <;> rcases res with _ | _ <;>
      simp [hm, h]
  · intro m₁ m₂ u sid cid h1 h2
    have e1 : chatMessage ⟨some m₁, u, sid, cid⟩ = m₁ := by
      simp [chatMessage, pyOrStr, h1]
    have e2 : chatMessage ⟨some m₂, u, sid, cid⟩ = m₂ := by
      simp [chatMessage, pyOrStr, h2]
    unfold chat
    simp only [e1, e2, chatSession, h1, h2, if_false,
      call_revinci_api_input_irrelevant cache now tf ao m₁ m₂]

/-- C6 witness: two different nonempty messages produce identical chat
results for the same vendor outcomes, and the call log of a concrete request
contains no detector entry. -/
theorem c6_witness :
    chat ⟨some "hello", none, some "s1", none⟩ [] ⟨"", 0⟩ 0 (.timeout "")
        (.timeout "") =
      chat ⟨some "goodbye", none, some "s1", none⟩ [] ⟨"", 0⟩ 0 (.timeout "")
        (.timeout "") :=
  (c6_chat_ignores_detectors ⟨some "hello", none, some "s1", none⟩ [] ⟨"", 0⟩
      0 (.timeout "") (.timeout "")).2 "hello" "goodbye" none (some "s1")
      none (by decide) (by decide)

/-- C7: a non-200 ElevenLabs status on `/api/tts` and a non-200 Azure status
on `/api/stt` are propagated unchanged to the caller, with a JSON error
body. -/
theorem c7_vendor_status_propagated (tKey : String) (tReq : TtsReq)
    (ht : tReq.text.getD "" ≠ "") (htk : pyStrip tKey ≠ "")
    (s : Nat) (hs : s ≠ 200) (b : TtsErrBody) (sb : SttBody) :
    (text_to_speech tKey tReq (.response s b)).1 =
      ⟨s, .errorJson ("ElevenLabs error (" ++ toString s ++ "): "
        ++ b.errDetail.getD b.errText)⟩ ∧
    (speech_to_text true (.vendor (.response s sb))).1 =
      ⟨s, .errorJson ("Azure STT error (" ++ toString s ++ "): " ++ sb.text)⟩ := by
  constructor <;> simp [text_to_speech, speech_to_text, ht, htk, hs]

/-- C7 witness: a 429 from ElevenLabs and a 401 from Azure STT come back as
429 and 401. -/
theorem c7_witness :
    (text_to_speech "key" ⟨some "hello", none⟩
        (.response 429 ⟨"rate limited", none⟩)).1 =
      ⟨429, .errorJson ("ElevenLabs error (" ++ toString (429 : Nat) ++ "): "
        ++ (Option.getD none "rate limited"))⟩ ∧
    (speech_to_text true (.vendor (.response 401 ⟨"denied", "", ""⟩))).1 =
      ⟨401, .errorJson ("Azure STT error (" ++ toString (401 : Nat) ++ "): "
        ++ "denied")⟩ :=
  ⟨(c7_vendor_status_propagated "key" ⟨some "hello", none⟩ (by decide)
      (by decide) 429 (by decide) ⟨"rate limited", none⟩ ⟨"denied", "", ""⟩).1,
   (c7_vendor_status_propagated "key" ⟨some "hello", none⟩ (by decide)
      (by decide) 401 (by decide) ⟨"rate limited", none⟩ ⟨"denied", "", ""⟩).2⟩

/-- C9: for every `/api/news` request with a valid `page_size` between 1 and
100 (and assuming the vendor honors the requested `pageSize`, i.e. returns at
most that many articles), a successful response carries at most
`min page_size 10` articles; moreover the `pageSize` actually sent to the
vendor is capped at the configured limit `NEWS_CONFIG['page_size'] = 10`. -/
theorem c9_news_page_size_cap (apiKey : String) (hk : apiKey ≠ "")
    (q c co : Option String) (n : Int) (h1 : 1 ≤ n) (h2 : n ≤ 100)
    (outcome : HttpOutcome NewsBody)
    (hhonor : (newsOutcomeArticles outcome).length ≤
      (min n NEWS_CONFIG_page_size).toNat) :
    (∀ d, (get_news apiKey q c co (.val n) outcome).1.body = .json d →
       d.articles.length ≤ (min n NEWS_CONFIG_page_size).toNat) ∧
    (∀ sent, (get_news apiKey q c co (.val n) outcome).2 = some sent →
       sent.pageSize = min n NEWS_CONFIG_page_size) := by
  have hrange : ¬ ((n : Int) < 1 ∨ n > 100) := by omega
  rcases outcome with ⟨s, b⟩ | m | m | m
  case timeout | connErr | otherErr =>
    constructor
    · intro d hd
      simp [get_news, get_general_news, IntParam.getD, hrange, hk] at hd
    · intro sent hsent
      simp [get_news, get_general_news, IntParam.getD, hrange, hk] at hsent
      simp [← hsent]
  case response =>
    by_cases hs : s = 200
    · by_cases hok : b.statusField = "ok"
      · rcases hb : b.articles with _ | arts
        · constructor
          · intro d hd
            simp [get_news, get_general_news, IntParam.getD, hrange, hk,
              hs, hok, hb] at hd
          · intro sent hsent
            simp [get_news, get_general_news, IntParam.getD, hrange, hk,
              hs, hok, hb] at hsent
            simp [← hsent]
        · rcases arts with _ | ⟨a, rest⟩
          · constructor
            · intro d hd
              simp [get_news, get_general_news, IntParam.getD, hrange, hk,
                hs, hok, hb] at hd
            · intro sent hsent
              simp [get_news, get_general_news, IntParam.getD, hrange, hk,
                hs, hok, hb] at hsent
              simp [← hsent]
          · have harts : (a :: rest).length ≤ (min n NEWS_CONFIG_page_size).toNat := by
              simpa [newsOutcomeArticles, hb] using hhonor
            constructor
            · intro d hd
              simp [get_news, get_general_news, IntParam.getD, hrange, hk,
                hs, hok, hb] at hd
              have : d.articles.length =
                  min n.toNat (a :: rest).length := by
                rw [← hd]
                simp
              omega
            · intro sent hsent
              simp [get_news, get_general_news, IntParam.getD, hrange, hk,
                hs, hok, hb] at hsent
              simp [← hsent]
      · constructor
        · intro d hd
          simp [get_news, get_general_news, IntParam.getD, hrange, hk,
            hs, hok] at hd
        · intro sent hsent
          simp [get_news, get_general_news, IntParam.getD, hrange, hk,
            hs, hok] at hsent
          simp [← hsent]
    · constructor
      · intro d hd
        simp [get_news, get_general_news, IntParam.getD, hrange, hk, hs] at hd
      · intro sent hsent
        simp [get_news, get_general_news, IntParam.getD, hrange, hk, hs] at hsent
        simp [← hsent]

/-- C9 witness: a request with `page_size = 20` against a vendor that
returns two articles gets two articles (two ≤ min 20 10), and the vendor was
asked for at most 10. -/
theorem c9_witness :
    (∀ d, (get_news "key" none none none (.val 20)
        (.response 200 ⟨"ok", some [⟨some "a", none, none, none, none, none, none⟩,
          ⟨some "b", none, none, none, none, none, none⟩], some 55, none⟩)).1.body
        = .json d →
       d.articles.length ≤ (min (20 : Int) NEWS_CONFIG_page_size).toNat) ∧
    (∀ sent, (get_news "key" none none none (.val 20)
        (.response 200 ⟨"ok", some [⟨some "a", none, none, none, none, none, none⟩,
          ⟨some "b", none, none, none, none, none, none⟩], some 55, none⟩)).2
        = some sent →
       sent.pageSize = min (20 : Int) NEWS_CONFIG_page_size) :=
  c9_news_page_size_cap "key" (by decide) none none none 20 (by norm_num)
    (by norm_num)
    (.response 200 ⟨"ok", some [⟨some "a", none, none, none, none, none, none⟩,
      ⟨some "b", none, none, none, none, none, none⟩], some 55, none⟩)
    (by decide)

/-- C10: `/api/health` reports the weather and news APIs as configured
exactly when their keys differ from the placeholder literals
`YOUR_OPENWEATHERMAP_API_KEY` / `YOUR_NEWSAPI_KEY`; in particular an empty
(unset) key is reported as `configured`, not `not configured`. -/
theorem c10_health_placeholder_check (wk nk ak : String) (ss : Sessions) :
    ((health_check wk nk ak ss).weather_api = "configured" ↔
      wk ≠ "YOUR_OPENWEATHERMAP_API_KEY") ∧
    ((health_check wk nk ak ss).news_api = "configured" ↔
      nk ≠ "YOUR_NEWSAPI_KEY") ∧
    (health_check "" nk ak ss).weather_api = "configured" ∧
    (health_check wk "" ak ss).news_api = "configured" := by
  refine ⟨?_, ?_, ?_, ?_⟩
  · by_cases h : wk = "YOUR_OPENWEATHERMAP_API_KEY" <;>
      simp [health_check, h]
  · by_cases h : nk = "YOUR_NEWSAPI_KEY" <;>
      simp [health_check, h]
  · simp [health_check]
  · simp [health_check]

end ConvAvatar
